import Mathlib

/-!
Verification of the Cabsync ride-fare comparison application.

The definitions below are a shallow embedding of the TypeScript sources:

* `src/services/api.ts` — the client-side mock compare pipeline
  (`generateMockCompareResponse`): service catalog, traffic multiplier,
  great-circle distance, per-service fare/ETA synthesis, sorting.
* `src/services/geocoding.ts` — location search (`searchLocations`),
  merge/rank/dedup (`mergeAndRankResults`, `scoreAndFilterResults`,
  `normalizeLocationKey`), the static gazetteer (`generateMockSuggestions`),
  and `calculateDistance`.
* `src/utils/index.ts` — `isValidLocation`.
* `src/components/SearchCard.tsx` — the form submit handler.

JavaScript numbers are idealised as exact rationals (`ℚ`); the
trigonometric distance formulas are embedded over `ℝ`.  Sources of
nondeterminism in the original code (`Math.random()` draws, the wall
clock) are lifted to explicit parameters, so every embedded operation is
a pure function of its inputs.
-/

namespace Cabsync

/-! ### JavaScript numeric primitives -/

/-- JS `Math.round`: round half toward positive infinity. -/
def jsRound (q : ℚ) : ℤ := ⌊q + 1 / 2⌋

/-- The integer `n` such that `Number.prototype.toFixed(p)` renders `q` as
`n / 10^p`: ties are resolved away from zero on the absolute value
(ECMA-262 picks the larger candidate for the nonnegative magnitude). -/
def toFixedScaled (q : ℚ) (p : ℕ) : ℤ :=
  if q < 0 then -⌊(-q) * (10 : ℚ) ^ p + 1 / 2⌋ else ⌊q * (10 : ℚ) ^ p + 1 / 2⌋

/-- `parseFloat(q.toFixed(p))`: the numeric value of the fixed-point
rendering. -/
def toFixedVal (q : ℚ) (p : ℕ) : ℚ := (toFixedScaled q p : ℚ) / (10 : ℚ) ^ p

/-- Left-pad a digit string with zeros to four characters (the fractional
part of a `toFixed(4)` rendering). -/
def padTo4 (s : String) : String :=
  if s.length < 4 then String.mk (List.replicate (4 - s.length) '0') ++ s else s

/-- The decimal string `q.toFixed(4)` for a nonnegative magnitude. -/
def toFixed4Core (q : ℚ) : String :=
  let n := ⌊q * 10000 + 1 / 2⌋
  toString (n / 10000) ++ "." ++ padTo4 (toString (n % 10000))

/-- The decimal string `q.toFixed(4)` (JS `Number.prototype.toFixed`). -/
def toFixed4 (q : ℚ) : String :=
  if q < 0 then "-" ++ toFixed4Core (-q) else toFixed4Core q

/-! ### JavaScript string primitives -/

/-- JS `String.prototype.toLowerCase`, computed on the character list (the
source strings are ASCII, where JS and Unicode simple lowercasing agree). -/
def jsToLower (s : String) : String := String.mk (s.data.map Char.toLower)

/-- JS `String.prototype.trim`: strip leading and trailing whitespace. -/
def jsTrim (s : String) : String :=
  String.mk (((s.data.dropWhile Char.isWhitespace).reverse.dropWhile Char.isWhitespace).reverse)

/-- Substring occurrence on character lists: `charsContains sub s` is
`true` iff `sub` occurs contiguously inside `s`. -/
def charsContains (sub : List Char) : List Char → Bool
  | [] => sub.isEmpty
  | c :: t => sub.isPrefixOf (c :: t) || charsContains sub t

/-- JS `String.prototype.includes`. -/
def strIncludes (s sub : String) : Bool := charsContains sub.data s.data

/-- JS `String.prototype.startsWith`. -/
def strStartsWith (s sub : String) : Bool := sub.data.isPrefixOf s.data

/-- The word list produced by JS `split(/\s+/)` up to boundary empty
strings: maximal runs of non-whitespace characters.  (JS also yields an
empty string at a boundary when the input starts or ends with whitespace;
such a word only shifts every score by the same constant, so it is
dropped here.) -/
def wordsOfAux : List Char → List Char → List (List Char)
  | [], acc => if acc.isEmpty then [] else [acc.reverse]
  | c :: t, acc =>
    if c.isWhitespace then
      if acc.isEmpty then wordsOfAux t [] else acc.reverse :: wordsOfAux t []
    else wordsOfAux t (c :: acc)

/-- Split a string into whitespace-separated words. -/
def splitWords (s : String) : List String :=
  (wordsOfAux s.data []).map String.mk

/-! ### Data model (`src/types/index.ts`) -/

/-- `Location` from `src/types/index.ts`: coordinates plus free-text
address and optional provider place identifier. -/
structure Location where
  lat : ℚ
  lng : ℚ
  address : String
  placeId : Option String
deriving DecidableEq

/-! ### Static gazetteer (`generateMockSuggestions`, geocoding.ts) -/

/-- The static in-memory gazetteer `mockLocations` from
`generateMockSuggestions` in `src/services/geocoding.ts`. -/
def mockLocations : List Location := [
  { lat := 28.6139, lng := 77.2090, address := "Connaught Place, New Delhi, Delhi, India", placeId := none },
  { lat := 28.5355, lng := 77.3910, address := "Noida City Centre, Noida, Uttar Pradesh, India", placeId := none },
  { lat := 28.4595, lng := 77.0266, address := "Cyber Hub, Gurugram, Haryana, India", placeId := none },
  { lat := 28.6692, lng := 77.4538, address := "Akshardham Temple, Delhi, India", placeId := none },
  { lat := 28.5274, lng := 77.2065, address := "Hauz Khas Village, Delhi, India", placeId := none },
  { lat := 28.6508, lng := 77.2311, address := "Karol Bagh, Delhi, India", placeId := none },
  { lat := 28.6304, lng := 77.2177, address := "India Gate, New Delhi, Delhi, India", placeId := none },
  { lat := 28.6562, lng := 77.2410, address := "Red Fort, Delhi, India", placeId := none },
  { lat := 12.9716, lng := 77.5946, address := "MG Road, Bangalore, Karnataka, India", placeId := none },
  { lat := 19.0760, lng := 72.8777, address := "Mumbai, Maharashtra, India", placeId := none },
  { lat := 13.0827, lng := 80.2707, address := "Chennai, Tamil Nadu, India", placeId := none },
  { lat := 22.5726, lng := 88.3639, address := "Kolkata, West Bengal, India", placeId := none },
  { lat := 17.3850, lng := 78.4867, address := "Hyderabad, Telangana, India", placeId := none },
  { lat := 23.0225, lng := 72.5714, address := "Ahmedabad, Gujarat, India", placeId := none },
  { lat := 18.5204, lng := 73.8567, address := "Pune, Maharashtra, India", placeId := none }]

/-- `generateMockSuggestions` from `src/services/geocoding.ts`: filter the
gazetteer by case-insensitive substring match and keep the first five. -/
def generateMockSuggestions (query : String) : List Location :=
  let lowerQuery := jsToLower query
  (mockLocations.filter (fun l => strIncludes (jsToLower l.address) lowerQuery)).take 5

/-- C9: the query "connaught place" against the static fallback gazetteer
returns exactly one entry, whose address contains
"Connaught Place, New Delhi". -/
theorem connaught_place_unique_entry :
    generateMockSuggestions "connaught place" =
      [{ lat := 28.6139, lng := 77.2090,
         address := "Connaught Place, New Delhi, Delhi, India", placeId := none }] ∧
    strIncludes "Connaught Place, New Delhi, Delhi, India" "Connaught Place, New Delhi" = true := by
  exact ⟨rfl, rfl⟩

/-! ### Mock fare synthesizer (`generateMockCompareResponse`, api.ts)

The sources of nondeterminism in the synthesizer — `Math.random()` draws and
the request clock — are lifted to parameters: `Draws` collects the five
jitter draws consumed per catalog service, `hour`/`day` stand for
`when.getHours()`/`when.getDay()`, and the haversine distance computed
upstream is passed in as `distanceKm`. -/

/-- One rate card from the `serviceCatalog` array inside
`generateMockCompareResponse` in `src/services/api.ts`. -/
structure ServiceRate where
  provider : String
  serviceType : String
  vehicleType : String
  baseFare : ℚ
  perKm : ℚ
  perMin : ℚ
  minFare : ℚ
  avgSpeed : ℚ
  etaLo : ℚ
  etaHi : ℚ
  confidence : ℚ
  vehicleCapacity : ℕ
  rating : ℚ
  co2PerKm : ℚ
  surgeChance : ℚ
deriving DecidableEq

/-- Catalog entry: Uber Auto. -/
def uberAuto : ServiceRate :=
  { provider := "uber", serviceType := "Uber Auto", vehicleType := "auto",
    baseFare := 38, perKm := 9.2, perMin := 1.15, minFare := 85, avgSpeed := 25,
    etaLo := 4, etaHi := 10, confidence := 0.93, vehicleCapacity := 3,
    rating := 4.65, co2PerKm := 95, surgeChance := 0.25 }

/-- Catalog entry: Uber Go. -/
def uberGo : ServiceRate :=
  { provider := "uber", serviceType := "Uber Go", vehicleType := "car",
    baseFare := 55, perKm := 11.8, perMin := 1.6, minFare := 120, avgSpeed := 30,
    etaLo := 5, etaHi := 12, confidence := 0.95, vehicleCapacity := 4,
    rating := 4.82, co2PerKm := 165, surgeChance := 0.3 }

/-- Catalog entry: Ola Auto. -/
def olaAuto : ServiceRate :=
  { provider := "ola", serviceType := "Ola Auto", vehicleType := "auto",
    baseFare := 34, perKm := 9, perMin := 1.05, minFare := 80, avgSpeed := 24,
    etaLo := 4, etaHi := 11, confidence := 0.91, vehicleCapacity := 3,
    rating := 4.52, co2PerKm := 90, surgeChance := 0.28 }

/-- Catalog entry: Ola Bike. -/
def olaBike : ServiceRate :=
  { provider := "ola", serviceType := "Ola Bike", vehicleType := "bike",
    baseFare := 28, perKm := 7.1, perMin := 0.85, minFare := 65, avgSpeed := 32,
    etaLo := 3, etaHi := 9, confidence := 0.88, vehicleCapacity := 1,
    rating := 4.48, co2PerKm := 55, surgeChance := 0.18 }

/-- Catalog entry: Rapido Bike. -/
def rapidoBike : ServiceRate :=
  { provider := "rapido", serviceType := "Rapido Bike", vehicleType := "bike",
    baseFare := 25, perKm := 6.4, perMin := 0.76, minFare := 60, avgSpeed := 34,
    etaLo := 3, etaHi := 8, confidence := 0.78, vehicleCapacity := 1,
    rating := 4.35, co2PerKm := 50, surgeChance := 0.16 }

/-- Catalog entry: Rapido Auto. -/
def rapidoAuto : ServiceRate :=
  { provider := "rapido", serviceType := "Rapido Auto", vehicleType := "auto",
    baseFare := 30, perKm := 8.4, perMin := 1, minFare := 70, avgSpeed := 24,
    etaLo := 4, etaHi := 10, confidence := 0.8, vehicleCapacity := 3,
    rating := 4.28, co2PerKm := 88, surgeChance := 0.22 }

/-- Catalog entry: inDrive Saver. -/
def indriveSaver : ServiceRate :=
  { provider := "indrive", serviceType := "inDrive Saver", vehicleType := "car",
    baseFare := 60, perKm := 12.2, perMin := 1.8, minFare := 150, avgSpeed := 29,
    etaLo := 6, etaHi := 13, confidence := 0.86, vehicleCapacity := 4,
    rating := 4.6, co2PerKm := 160, surgeChance := 0.27 }

/-- Catalog entry: inDrive Plus. -/
def indrivePlus : ServiceRate :=
  { provider := "indrive", serviceType := "inDrive Plus", vehicleType := "car",
    baseFare := 82, perKm := 15.8, perMin := 2.35, minFare := 200, avgSpeed := 31,
    etaLo := 7, etaHi := 14, confidence := 0.9, vehicleCapacity := 4,
    rating := 4.74, co2PerKm := 175, surgeChance := 0.3 }

/-- The `serviceCatalog` array from `generateMockCompareResponse`. -/
def serviceCatalog : List ServiceRate :=
  [uberAuto, uberGo, olaAuto, olaBike, rapidoBike, rapidoAuto, indriveSaver, indrivePlus]

/-- The time-of-day `trafficMultiplier` from `generateMockCompareResponse`
(`hour = when.getHours()`, `day = when.getDay()`). -/
def trafficMultiplier (hour day : ℕ) : ℚ :=
  let base : ℚ := 1
  let withPeak :=
    if (7 ≤ hour ∧ hour < 10) ∨ (17 ≤ hour ∧ hour < 21) then base + 0.3
    else if 22 ≤ hour ∨ hour < 5 then base - 0.15
    else base
  let withWeekend := if day = 0 ∨ day = 6 then withPeak + 0.05 else withPeak
  max 0.8 (min withWeekend 1.5)

/-- The five `Math.random()` draws consumed for one catalog service inside
the `results` map of `generateMockCompareResponse`, in call order. -/
structure Draws where
  durJ : ℚ
  priceJ : ℚ
  surgeRoll : ℚ
  surgeJ : ℚ
  etaJ : ℚ
deriving DecidableEq

/-- The all-zero draw vector: every `Math.random()` call stubbed to `0`,
i.e. random jitter disabled. -/
def zeroDraws : Draws := { durJ := 0, priceJ := 0, surgeRoll := 0, surgeJ := 0, etaJ := 0 }

/-- `tripMinutes` for one service (`generateMockCompareResponse`,
api.ts line 271). -/
def tripMinutesOf (s : ServiceRate) (d : Draws) (distanceKm tm : ℚ) : ℚ :=
  max (distanceKm / max s.avgSpeed 20 * 60) 6 * tm * (0.95 + d.durJ * 0.15)

/-- The raw per-service price before the minimum-fare clamp
(api.ts line 272). -/
def basePriceOf (s : ServiceRate) (d : Draws) (distanceKm tm : ℚ) : ℚ :=
  s.baseFare + distanceKm * s.perKm * (0.6 + tm * 0.5) +
    tripMinutesOf s d distanceKm tm * s.perMin * (0.4 + tm * 0.3)

/-- The clamped, jittered price (api.ts line 273). -/
def clampedPriceOf (s : ServiceRate) (d : Draws) (distanceKm tm : ℚ) : ℚ :=
  max s.minFare (basePriceOf s d distanceKm tm) * (0.96 + d.priceJ * 0.08)

/-- The optional surge multiplier (api.ts lines 275-279):
`parseFloat((1.1 + r * 0.4).toFixed(2))` when the surge roll fires. -/
def surgeOf (s : ServiceRate) (d : Draws) (tm : ℚ) : Option ℚ :=
  if 1.1 < tm ∧ d.surgeRoll < s.surgeChance * tm
  then some (toFixedVal (1.1 + d.surgeJ * 0.4) 2)
  else none

/-- The price after the optional surge multiplication (api.ts line 278). -/
def surgedPriceOf (s : ServiceRate) (d : Draws) (distanceKm tm : ℚ) : ℚ :=
  match surgeOf s d tm with
  | some sg => clampedPriceOf s d distanceKm tm * sg
  | none => clampedPriceOf s d distanceKm tm

/-- The final `price.value` field (api.ts line 292):
`Math.round(Math.max(service.minFare, price) / 5) * 5`. -/
def priceValueOf (s : ServiceRate) (d : Draws) (distanceKm tm : ℚ) : ℚ :=
  (jsRound (max s.minFare (surgedPriceOf s d distanceKm tm) / 5) : ℚ) * 5

/-- `etaMinutes` for one service (api.ts lines 281-284). -/
def etaMinutesOf (s : ServiceRate) (d : Draws) (tm : ℚ) : ℚ :=
  max 0.5 ((s.etaLo + d.etaJ * (s.etaHi - s.etaLo)) * (0.85 + (tm - 1) * 0.5))

/-- The `deepLinks` record from `generateMockCompareResponse`
(a missing key would be `undefined`; every catalog provider is present). -/
def deepLinkFor (p : String) : String :=
  if p = "uber" then "https://m.uber.com/ul/?action=setPickup"
  else if p = "ola" then "https://book.olacabs.com/"
  else if p = "rapido" then "https://rapido.bike/book/ride"
  else if p = "indrive" then "https://indrive.com/ride"
  else ""

/-- One entry of the `results` array of `generateMockCompareResponse`
(api.ts lines 288-308), with the nested `price`/`eta`/`meta` objects
flattened into fields. -/
structure MockResult where
  provider : String
  serviceType : String
  priceValue : ℚ
  priceCurrency : String
  priceConfidence : ℚ
  etaSeconds : ℤ
  etaText : String
  distanceM : ℤ
  surge : Option ℚ
  deepLink : String
  vehicleCapacity : ℕ
  rating : ℚ
  co2Estimate : ℤ
deriving DecidableEq

/-- Build the result entry for one catalog service (the body of the
`chosenServices.map` callback in `generateMockCompareResponse`). -/
def buildResult (s : ServiceRate) (d : Draws) (distanceKm tm : ℚ) : MockResult :=
  { provider := s.provider,
    serviceType := s.serviceType,
    priceValue := priceValueOf s d distanceKm tm,
    priceCurrency := "₹",
    priceConfidence := s.confidence,
    etaSeconds := max 30 (jsRound (etaMinutesOf s d tm * 60)),
    etaText := if etaMinutesOf s d tm ≤ 1 then "Now"
               else toString (jsRound (etaMinutesOf s d tm)) ++ " mins",
    distanceM := jsRound (distanceKm * 1000),
    surge := surgeOf s d tm,
    deepLink := deepLinkFor s.provider,
    vehicleCapacity := s.vehicleCapacity,
    rating := s.rating,
    co2Estimate := jsRound (distanceKm * s.co2PerKm) }

/-- The `matches` filter of `generateMockCompareResponse` (api.ts
lines 248-250); `p` is the lower-cased requested vehicle type. -/
def matchesFor (p : Option String) : List ServiceRate :=
  serviceCatalog.filter (fun s =>
    match p with
    | some t => s.vehicleType == t
    | none => true)

/-- The `relaxedMatches` fallback filter (api.ts lines 251-256). -/
def relaxedMatchesFor (p : Option String) : List ServiceRate :=
  match p with
  | none => serviceCatalog
  | some t =>
    if t = "auto" then
      serviceCatalog.filter (fun s => s.vehicleType == "auto" || s.vehicleType == "car")
    else if t = "car" then
      serviceCatalog.filter (fun s => s.vehicleType == "car" || s.vehicleType == "suv")
    else
      serviceCatalog.filter (fun s => s.vehicleType == t)

/-- `chosenServices` (api.ts line 257): the strict matches when nonempty,
otherwise the relaxed matches. -/
def chosenServicesFor (p : Option String) : List ServiceRate :=
  if (matchesFor p).isEmpty then relaxedMatchesFor p else matchesFor p

/-- The ascending-price comparison used by
`results.sort((a, b) => a.price.value - b.price.value)`. -/
def priceOrder (a b : MockResult) : Prop := a.priceValue ≤ b.priceValue

instance : DecidableRel priceOrder :=
  fun a b => inferInstanceAs (Decidable (a.priceValue ≤ b.priceValue))

instance : IsTotal MockResult priceOrder := ⟨fun a b => le_total a.priceValue b.priceValue⟩

instance : IsTrans MockResult priceOrder := ⟨fun _ _ _ h1 h2 => le_trans h1 h2⟩

/-- The sorted `results` list of `generateMockCompareResponse`:
`vehicleType` is the optional vehicle-class filter of the request (already
lower-cased by `preferredTypeOf`), `distanceKm` the haversine distance,
`hour`/`day` the request clock, `draws` the per-service jitter draws. -/
def generateMockResults (p : Option String) (distanceKm : ℚ) (hour day : ℕ)
    (draws : ℕ → Draws) : List MockResult :=
  let tm := trafficMultiplier hour day
  let raw := (chosenServicesFor p).enum.map (fun e => buildResult e.2 (draws e.1) distanceKm tm)
  List.insertionSort priceOrder raw

/-- `request.vehicleType?.toLowerCase()` (api.ts line 247). -/
def preferredTypeOf (vt : Option String) : Option String := vt.map jsToLower

/-- C8: the results list of the local mock compare operation is sorted by
ascending `price.value`: the price of every earlier entry is at most the
price of every later entry, in particular for each adjacent pair. -/
theorem mock_results_sorted_by_price (p : Option String) (distanceKm : ℚ)
    (hour day : ℕ) (draws : ℕ → Draws) :
    List.Sorted priceOrder (generateMockResults p distanceKm hour day draws) := by
  unfold generateMockResults
  exact List.sorted_insertionSort priceOrder _

/-- C2: the fare synthesizer is deterministic once random jitter is
disabled — for any fixed request (in particular the example in the spec with
pickup (28.6139, 77.2090), drop-off (28.5355, 77.3910) and vehicle class
"car", whose distance, hour and day appear here as the fixed parameters
`distanceKm`, `hour`, `day`), two calls whose jitter draws are all stubbed
to zero produce identical output. -/
theorem mock_deterministic_without_jitter (distanceKm : ℚ) (hour day : ℕ)
    (d1 d2 : ℕ → Draws) (h1 : ∀ i, d1 i = zeroDraws) (h2 : ∀ i, d2 i = zeroDraws) :
    generateMockResults (preferredTypeOf (some "car")) distanceKm hour day d1 =
      generateMockResults (preferredTypeOf (some "car")) distanceKm hour day d2 := by
  have hd : d1 = d2 := funext fun i => (h1 i).trans (h2 i).symm
  rw [hd]

/-- Witness for C2 at concrete inputs. -/
theorem mock_deterministic_without_jitter_witness :
    generateMockResults (preferredTypeOf (some "car")) 14 10 2 (fun _ => zeroDraws) =
      generateMockResults (preferredTypeOf (some "car")) 14 10 2 (fun _ => zeroDraws) :=
  mock_deterministic_without_jitter 14 10 2 (fun _ => zeroDraws) (fun _ => zeroDraws)
    (fun _ => rfl) (fun _ => rfl)

/-- C4: outside the peak hour windows the traffic multiplier is `1` up to
the small weekend/night adjustments (one of `1`, `1.05`, `0.85`, `0.9`)
and in particular stays strictly below the `+0.3` peak premium. -/
theorem traffic_multiplier_offpeak (hour day : ℕ)
    (h : ¬((7 ≤ hour ∧ hour < 10) ∨ (17 ≤ hour ∧ hour < 21))) :
    (trafficMultiplier hour day = 1 ∨ trafficMultiplier hour day = 1.05 ∨
     trafficMultiplier hour day = 0.85 ∨ trafficMultiplier hour day = 0.9) ∧
    trafficMultiplier hour day < 1 + 0.3 := by
  simp only [trafficMultiplier]
  rw [if_neg h]
  split_ifs with h2 h3 <;> norm_num [min_def, max_def]

/-- Witness for C4 at hour 12 on a Wednesday. -/
theorem traffic_multiplier_offpeak_witness :
    (trafficMultiplier 12 3 = 1 ∨ trafficMultiplier 12 3 = 1.05 ∨
     trafficMultiplier 12 3 = 0.85 ∨ trafficMultiplier 12 3 = 0.9) ∧
    trafficMultiplier 12 3 < 1 + 0.3 :=
  traffic_multiplier_offpeak 12 3 (by decide)

/-- The output length of the mock compare operation equals the number of
chosen catalog services, independently of the jitter draws. -/
theorem generateMockResults_length (p : Option String) (distanceKm : ℚ)
    (hour day : ℕ) (draws : ℕ → Draws) :
    (generateMockResults p distanceKm hour day draws).length = (chosenServicesFor p).length := by
  unfold generateMockResults
  rw [List.length_insertionSort, List.length_map, List.enum_length]

/-- C10: requests for vehicle type "suv", "car-4" or "car-6" get an empty
results list from the mock compare operation, while "auto", "bike", "car"
and an absent vehicle type always get at least one result. -/
theorem mock_vehicle_type_coverage (distanceKm : ℚ) (hour day : ℕ) (draws : ℕ → Draws) :
    generateMockResults (preferredTypeOf (some "suv")) distanceKm hour day draws = [] ∧
    generateMockResults (preferredTypeOf (some "car-4")) distanceKm hour day draws = [] ∧
    generateMockResults (preferredTypeOf (some "car-6")) distanceKm hour day draws = [] ∧
    generateMockResults (preferredTypeOf (some "auto")) distanceKm hour day draws ≠ [] ∧
    generateMockResults (preferredTypeOf (some "bike")) distanceKm hour day draws ≠ [] ∧
    generateMockResults (preferredTypeOf (some "car")) distanceKm hour day draws ≠ [] ∧
    generateMockResults none distanceKm hour day draws ≠ [] := by
  have key : ∀ p : Option String, (chosenServicesFor p).length ≠ 0 →
      generateMockResults p distanceKm hour day draws ≠ [] := by
    intro p hp hemp
    have hl := generateMockResults_length p distanceKm hour day draws
    rw [hemp] at hl
    simp only [List.length_nil] at hl
    exact hp hl.symm
  exact ⟨rfl, rfl, rfl, key _ (by decide), key _ (by decide), key _ (by decide),
    key _ (by decide)⟩

/-- Rounding to the nearest multiple of five (JS
`Math.round(x / 5) * 5`) never drops below a five-multiple lower bound on
`x`. -/
theorem le_jsRound_div_five_mul_five (k : ℤ) (x : ℚ) (hx : 5 * (k : ℚ) ≤ x) :
    5 * (k : ℚ) ≤ (jsRound (x / 5) : ℚ) * 5 := by
  have h2 : k ≤ jsRound (x / 5) := by
    unfold jsRound
    have hk : (⌊(k : ℚ) + 1 / 2⌋ : ℤ) = k := by
      rw [Int.floor_int_add]
      norm_num [Int.floor_eq_iff]
    calc k = ⌊(k : ℚ) + 1 / 2⌋ := hk.symm
      _ ≤ ⌊x / 5 + 1 / 2⌋ := Int.floor_mono (by linarith)
  have h3 : (k : ℚ) ≤ (jsRound (x / 5) : ℚ) := by exact_mod_cast h2
  linarith

/-- The final `price.value` is at least `minFare` whenever `minFare` is a
multiple of five, regardless of the jitter and surge draws: the code
clamps with `Math.max(service.minFare, price)` directly inside the
round-to-five. -/
theorem minFare_le_priceValueOf (s : ServiceRate) (d : Draws) (distanceKm tm : ℚ)
    (k : ℤ) (hk : s.minFare = 5 * (k : ℚ)) :
    s.minFare ≤ priceValueOf s d distanceKm tm := by
  unfold priceValueOf
  rw [hk]
  exact le_jsRound_div_five_mul_five k _ (hk ▸ le_max_left s.minFare _)

/-- C1: for every service in the mock provider catalog the synthesized
`price.value` is at least the configured minimum fare of that service, for all
values of the random jitter and surge draws, every distance and every
traffic multiplier. -/
theorem mock_price_at_least_min_fare (s : ServiceRate) (d : Draws) (distanceKm tm : ℚ)
    (hs : s ∈ serviceCatalog) :
    s.minFare ≤ (buildResult s d distanceKm tm).priceValue := by
  have hb : (buildResult s d distanceKm tm).priceValue = priceValueOf s d distanceKm tm := rfl
  rw [hb]
  simp only [serviceCatalog, List.mem_cons, List.not_mem_nil, or_false] at hs
  rcases hs with rfl | rfl | rfl | rfl | rfl | rfl | rfl | rfl
  · exact minFare_le_priceValueOf _ d distanceKm tm 17 (by norm_num [uberAuto])
  · exact minFare_le_priceValueOf _ d distanceKm tm 24 (by norm_num [uberGo])
  · exact minFare_le_priceValueOf _ d distanceKm tm 16 (by norm_num [olaAuto])
  · exact minFare_le_priceValueOf _ d distanceKm tm 13 (by norm_num [olaBike])
  · exact minFare_le_priceValueOf _ d distanceKm tm 12 (by norm_num [rapidoBike])
  · exact minFare_le_priceValueOf _ d distanceKm tm 14 (by norm_num [rapidoAuto])
  · exact minFare_le_priceValueOf _ d distanceKm tm 30 (by norm_num [indriveSaver])
  · exact minFare_le_priceValueOf _ d distanceKm tm 40 (by norm_num [indrivePlus])

/-- Witness for C1 at a concrete catalog service and concrete inputs. -/
theorem mock_price_at_least_min_fare_witness :
    uberAuto.minFare ≤ (buildResult uberAuto zeroDraws 10 1).priceValue :=
  mock_price_at_least_min_fare uberAuto zeroDraws 10 1 (by simp [serviceCatalog])

/-! ### Great-circle distance (api.ts `computeDistanceKm`,
geocoding.ts `calculateDistance`)

The trigonometric formulas are embedded over `ℝ`, with the `ℚ`-valued
coordinates coerced into `ℝ`. -/

noncomputable section Distance

/-- Degree-to-radian conversion (`toRadians` in api.ts and
geocoding.ts). -/
def toRadians (x : ℝ) : ℝ := x * Real.pi / 180

/-- JS `Math.atan2(y, x)` for finite arguments. -/
def atan2 (y x : ℝ) : ℝ :=
  if 0 < x then Real.arctan (y / x)
  else if x = 0 then
    (if 0 < y then Real.pi / 2 else if y < 0 then -(Real.pi / 2) else 0)
  else if 0 ≤ y then Real.arctan (y / x) + Real.pi
  else Real.arctan (y / x) - Real.pi

/-- The `haversine` intermediate value of `computeDistanceKm` in
`src/services/api.ts` (lines 98-100). -/
def haversineApi (a b : Location) : ℝ :=
  Real.sin (toRadians ((b.lat : ℝ) - (a.lat : ℝ)) / 2) *
      Real.sin (toRadians ((b.lat : ℝ) - (a.lat : ℝ)) / 2) +
    Real.sin (toRadians ((b.lng : ℝ) - (a.lng : ℝ)) / 2) *
      Real.sin (toRadians ((b.lng : ℝ) - (a.lng : ℝ)) / 2) *
      Real.cos (toRadians (a.lat : ℝ)) * Real.cos (toRadians (b.lat : ℝ))

/-- `computeDistanceKm` from `src/services/api.ts`: the floored haversine
distance; an undefined endpoint falls back to `6 + Math.random() * 6`,
with the draw lifted to the parameter `rand`. -/
def computeDistanceKm (a b : Option Location) (rand : ℝ) : ℝ :=
  match a, b with
  | some a, some b =>
    max 0.75 (6371 *
      (2 * atan2 (Real.sqrt (haversineApi a b)) (Real.sqrt (1 - haversineApi a b))))
  | _, _ => 6 + rand * 6

/-- The `a` intermediate value of `calculateDistance` in
`src/services/geocoding.ts` (lines 392-397). -/
def haversineGeo (l1 l2 : Location) : ℝ :=
  Real.sin (toRadians ((l2.lat : ℝ) - (l1.lat : ℝ)) / 2) *
      Real.sin (toRadians ((l2.lat : ℝ) - (l1.lat : ℝ)) / 2) +
    Real.cos (toRadians (l1.lat : ℝ)) * Real.cos (toRadians (l2.lat : ℝ)) *
      Real.sin (toRadians ((l2.lng : ℝ) - (l1.lng : ℝ)) / 2) *
      Real.sin (toRadians ((l2.lng : ℝ) - (l1.lng : ℝ)) / 2)

/-- `calculateDistance` from `src/services/geocoding.ts`: haversine
distance in kilometres. -/
def calculateDistance (l1 l2 : Location) : ℝ :=
  6371 * (2 * atan2 (Real.sqrt (haversineGeo l1 l2)) (Real.sqrt (1 - haversineGeo l1 l2)))

end Distance

/-- `Real.arctan` is nonnegative on nonnegative inputs. -/
theorem arctan_nonneg_of_nonneg (t : ℝ) (ht : 0 ≤ t) : 0 ≤ Real.arctan t := by
  have h := Real.arctan_strictMono.monotone ht
  rwa [Real.arctan_zero] at h

/-- `Math.atan2` is nonnegative on the closed upper-right quadrant. -/
theorem atan2_nonneg (y x : ℝ) (hy : 0 ≤ y) (hx : 0 ≤ x) : 0 ≤ atan2 y x := by
  unfold atan2
  rcases lt_or_eq_of_le hx with hpos | heq
  · rw [if_pos hpos]
    exact arctan_nonneg_of_nonneg _ (div_nonneg hy (le_of_lt hpos))
  · rw [if_neg (by rw [← heq]; exact lt_irrefl 0), if_pos heq.symm]
    rcases lt_or_eq_of_le hy with hy2 | hy2
    · rw [if_pos hy2]
      positivity
    · rw [if_neg (by rw [← hy2]; exact lt_irrefl 0), if_neg (by rw [← hy2]; exact lt_irrefl 0)]

/-- The api.ts haversine term is symmetric in its endpoints. -/
theorem haversineApi_symm (a b : Location) : haversineApi a b = haversineApi b a := by
  unfold haversineApi toRadians
  have hlat : ((a.lat : ℝ) - (b.lat : ℝ)) * Real.pi / 180 / 2 =
      -(((b.lat : ℝ) - (a.lat : ℝ)) * Real.pi / 180 / 2) := by ring
  have hlng : ((a.lng : ℝ) - (b.lng : ℝ)) * Real.pi / 180 / 2 =
      -(((b.lng : ℝ) - (a.lng : ℝ)) * Real.pi / 180 / 2) := by ring
  rw [hlat, hlng]
  simp only [Real.sin_neg]
  ring

/-- The geocoding.ts haversine term is symmetric in its endpoints. -/
theorem haversineGeo_symm (l1 l2 : Location) : haversineGeo l1 l2 = haversineGeo l2 l1 := by
  unfold haversineGeo toRadians
  have hlat : ((l1.lat : ℝ) - (l2.lat : ℝ)) * Real.pi / 180 / 2 =
      -(((l2.lat : ℝ) - (l1.lat : ℝ)) * Real.pi / 180 / 2) := by ring
  have hlng : ((l1.lng : ℝ) - (l2.lng : ℝ)) * Real.pi / 180 / 2 =
      -(((l2.lng : ℝ) - (l1.lng : ℝ)) * Real.pi / 180 / 2) := by ring
  rw [hlat, hlng]
  simp only [Real.sin_neg]
  ring

/-- C5: for every pair of locations with defined, valid coordinates, both
great-circle distance computations are nonnegative and symmetric under
swapping their arguments. -/
theorem distance_nonneg_and_symm (a b : Location) (rand : ℝ)
    (ha : -90 ≤ a.lat ∧ a.lat ≤ 90 ∧ -180 ≤ a.lng ∧ a.lng ≤ 180)
    (hb : -90 ≤ b.lat ∧ b.lat ≤ 90 ∧ -180 ≤ b.lng ∧ b.lng ≤ 180) :
    0 ≤ calculateDistance a b ∧
    calculateDistance a b = calculateDistance b a ∧
    0 ≤ computeDistanceKm (some a) (some b) rand ∧
    computeDistanceKm (some a) (some b) rand = computeDistanceKm (some b) (some a) rand := by
  refine ⟨?_, ?_, ?_, ?_⟩
  · have h := atan2_nonneg (Real.sqrt (haversineGeo a b))
      (Real.sqrt (1 - haversineGeo a b)) (Real.sqrt_nonneg _) (Real.sqrt_nonneg _)
    unfold calculateDistance
    positivity
  · unfold calculateDistance
    rw [haversineGeo_symm]
  · show (0 : ℝ) ≤ max 0.75 (6371 *
      (2 * atan2 (Real.sqrt (haversineApi a b)) (Real.sqrt (1 - haversineApi a b))))
    exact le_trans (by norm_num) (le_max_left _ _)
  · show max 0.75 (6371 *
        (2 * atan2 (Real.sqrt (haversineApi a b)) (Real.sqrt (1 - haversineApi a b)))) =
      max 0.75 (6371 *
        (2 * atan2 (Real.sqrt (haversineApi b a)) (Real.sqrt (1 - haversineApi b a))))
    rw [haversineApi_symm]

/-- Witness for C5 at Connaught Place and Noida City Centre. -/
theorem distance_nonneg_and_symm_witness :
    0 ≤ calculateDistance
        { lat := 28.6139, lng := 77.2090, address := "CP", placeId := none }
        { lat := 28.5355, lng := 77.3910, address := "Noida", placeId := none } ∧
    calculateDistance
        { lat := 28.6139, lng := 77.2090, address := "CP", placeId := none }
        { lat := 28.5355, lng := 77.3910, address := "Noida", placeId := none } =
      calculateDistance
        { lat := 28.5355, lng := 77.3910, address := "Noida", placeId := none }
        { lat := 28.6139, lng := 77.2090, address := "CP", placeId := none } ∧
    0 ≤ computeDistanceKm
        (some { lat := 28.6139, lng := 77.2090, address := "CP", placeId := none })
        (some { lat := 28.5355, lng := 77.3910, address := "Noida", placeId := none }) 0 ∧
    computeDistanceKm
        (some { lat := 28.6139, lng := 77.2090, address := "CP", placeId := none })
        (some { lat := 28.5355, lng := 77.3910, address := "Noida", placeId := none }) 0 =
      computeDistanceKm
        (some { lat := 28.5355, lng := 77.3910, address := "Noida", placeId := none })
        (some { lat := 28.6139, lng := 77.2090, address := "CP", placeId := none }) 0 :=
  distance_nonneg_and_symm
    { lat := 28.6139, lng := 77.2090, address := "CP", placeId := none }
    { lat := 28.5355, lng := 77.3910, address := "Noida", placeId := none } 0
    (by norm_num) (by norm_num)

/-! ### Location search merge/rank (`src/services/geocoding.ts`)

A raw geocoding result as consumed by `scoreAndFilterResults` and
`mergeAndRankResults`: the `Location` fields plus the `_raw` attributes
the scoring heuristic reads.  The TypeScript fallback chains over the
dynamic `_raw` object (`raw.type` falling back to `properties.type` and then the empty string,
`parseFloat(raw.importance || raw.properties?.importance || 0)`,
`raw.name || raw.namedetails?.name || raw.properties?.name`,
`raw.properties?.distance`) are flattened into one field each. -/

/-- A merged raw result from the Photon/Nominatim backends. -/
structure GeoResult where
  lat : ℚ
  lng : ℚ
  address : String
  placeId : Option String
  source : String
  rawType : String
  rawClass : String
  importance : ℚ
  rawName : Option String
  proximityDistance : Option ℚ
deriving DecidableEq

/-- The relevance score assigned by `scoreAndFilterResults`
(geocoding.ts lines 223-287). -/
def scoreOf (query : String) (loc : GeoResult) : ℚ :=
  let lowerQuery := jsToLower query
  let address := jsToLower loc.address
  let sourceScore : ℚ :=
    if loc.source = "photon" then 20 else if loc.source = "nominatim" then 10 else 0
  let exactScore : ℚ := if strStartsWith address lowerQuery then 100 else 0
  let wordScore : ℚ :=
    20 * (((splitWords lowerQuery).filter (fun w => strIncludes address w)).length : ℚ)
  let typeScore : ℚ :=
    if loc.rawType = "city" ∨ loc.rawType = "town" ∨ loc.rawType = "village" ∨
        loc.rawType = "locality" then 30 else 0
  let classScore : ℚ :=
    if loc.rawClass = "amenity" ∨ loc.rawClass = "tourism" ∨ loc.rawClass = "shop"
    then 15 else 0
  let importanceScore : ℚ := loc.importance * 50
  let lengthPenalty : ℚ := if 150 < address.length then -10 else 0
  let nameScore : ℚ :=
    match loc.rawName with
    | some n => if strIncludes (jsToLower n) lowerQuery then 25 else 0
    | none => 0
  let proximityScore : ℚ :=
    match loc.proximityDistance with
    | some d2 => max 0 (10 - d2)
    | none => 0
  sourceScore + exactScore + wordScore + typeScore + classScore + importanceScore +
    lengthPenalty + nameScore + proximityScore

/-- The descending-score comparison used by
`.sort((a, b) => b._score - a._score)` in `scoreAndFilterResults`. -/
def scoreOrder (query : String) (a b : GeoResult) : Prop :=
  scoreOf query b ≤ scoreOf query a

instance (query : String) : DecidableRel (scoreOrder query) :=
  fun a b => inferInstanceAs (Decidable (scoreOf query b ≤ scoreOf query a))

/-- `scoreAndFilterResults` from geocoding.ts: keep results scoring above
10, sorted by descending score. -/
def scoreAndFilterResults (locations : List GeoResult) (query : String) : List GeoResult :=
  List.insertionSort (scoreOrder query)
    (locations.filter (fun l => decide ((10 : ℚ) < scoreOf query l)))

/-- `normalizeLocationKey` from geocoding.ts lines 289-293. -/
def normalizeLocationKey (address : String) (lat lng : ℚ) : String :=
  jsTrim (jsToLower address) ++ "-" ++ toFixed4 lat ++ "-" ++ toFixed4 lng

/-- The dedup key of a raw result. -/
def keyOf (l : GeoResult) : String := normalizeLocationKey l.address l.lat l.lng

/-- The dedup loop of `mergeAndRankResults` (geocoding.ts lines 197-210):
walk the scored list, skip entries whose key was already seen, and stop
once `limit` entries have been collected (the source pushes the entry and
then breaks when `unique.length >= limit`, so a limit of zero still
yields one entry). -/
def dedupByKey : List GeoResult → List String → ℕ → List GeoResult
  | [], _, _ => []
  | x :: xs, seen, limit =>
    if keyOf x ∈ seen then dedupByKey xs seen limit
    else if limit ≤ 1 then [x]
    else x :: dedupByKey xs (keyOf x :: seen) (limit - 1)

/-- `mergeAndRankResults` from geocoding.ts lines 195-218: score, filter,
sort, dedup by normalized key, truncate, project to `Location`. -/
def mergeAndRankResults (locations : List GeoResult) (query : String) (limit : ℕ) :
    List Location :=
  (dedupByKey (scoreAndFilterResults locations query) [] limit).map
    (fun l => { lat := l.lat, lng := l.lng, address := l.address, placeId := l.placeId })

/-- The dedup loop emits pairwise-distinct keys, none of which was
already seen. -/
theorem dedupByKey_keys_distinct (l : List GeoResult) :
    ∀ (seen : List String) (limit : ℕ),
      (dedupByKey l seen limit).Pairwise (fun a b => keyOf a ≠ keyOf b) ∧
      ∀ a ∈ dedupByKey l seen limit, keyOf a ∉ seen := by
  induction l with
  | nil =>
    intro seen limit
    simp [dedupByKey]
  | cons x xs ih =>
    intro seen limit
    unfold dedupByKey
    by_cases hseen : keyOf x ∈ seen
    · rw [if_pos hseen]
      exact ih seen limit
    · rw [if_neg hseen]
      by_cases hlim : limit ≤ 1
      · rw [if_pos hlim]
        refine ⟨List.pairwise_singleton _ _, ?_⟩
        intro a ha
        rw [List.mem_singleton] at ha
        rw [ha]
        exact hseen
      · rw [if_neg hlim]
        obtain ⟨hpw, hmem⟩ := ih (keyOf x :: seen) (limit - 1)
        refine ⟨List.pairwise_cons.mpr ⟨?_, hpw⟩, ?_⟩
        · intro b hb
          have := hmem b hb
          intro hcontra
          exact this (by rw [← hcontra]; exact List.mem_cons_self _ _)
        · intro a ha
          rw [List.mem_cons] at ha
          rcases ha with rfl | ha
          · exact hseen
          · have := hmem a ha
            intro hcontra
            exact this (List.mem_cons_of_mem _ hcontra)

/-- C3: any two entries of the merged location-search output that carry
the same address string and whose coordinates agree after rounding to
four decimal places would share a dedup key, so the merged output
contains at most one entry per such class: distinct output positions
never hold two results with equal address and equal rounded
coordinates. -/
theorem merged_results_deduplicated (locations : List GeoResult) (query : String)
    (limit : ℕ) :
    (mergeAndRankResults locations query limit).Pairwise
      (fun a b => ¬(a.address = b.address ∧ toFixed4 a.lat = toFixed4 b.lat ∧
        toFixed4 a.lng = toFixed4 b.lng)) := by
  unfold mergeAndRankResults
  rw [List.pairwise_map]
  have hpw := (dedupByKey_keys_distinct (scoreAndFilterResults locations query) [] limit).1
  refine hpw.imp ?_
  intro a b hk hcontra
  obtain ⟨haddr, hlat, hlng⟩ := hcontra
  simp only at haddr hlat hlng
  apply hk
  unfold keyOf normalizeLocationKey
  rw [haddr, hlat, hlng]

/-! ### `searchLocations` (geocoding.ts lines 17-71)

Each backend fetch carries a per-backend `.catch(() => [])`, so a failed
backend contributes an empty list to the merge.  The two fetch outcomes
are lifted to `Except` parameters; the model represents a cold-cache call
(the five-minute `searchCache` is request-scoped state that only replays
a previous cold result). -/

/-- The value a backend contributes to the merge:
`fetch...catch(() => [])`. -/
def settledResults (e : Except String (List GeoResult)) : List GeoResult :=
  match e with
  | .ok l => l
  | .error _ => []

/-- `searchLocations` from geocoding.ts: reject queries shorter than
three characters after trimming, merge the two backend result lists, and
fall back to the static gazetteer when the merge comes back empty. -/
def searchLocationsModel (query : String)
    (photon nominatim : Except String (List GeoResult)) (limit : ℕ) : List Location :=
  let trimmedQuery := jsTrim query
  if trimmedQuery.length < 3 then []
  else
    let mergedResults :=
      mergeAndRankResults (settledResults photon ++ settledResults nominatim)
        trimmedQuery limit
    if 0 < mergedResults.length then mergedResults else generateMockSuggestions trimmedQuery

/-- C6: for a query of at least three trimmed characters, a failing
backend behaves exactly as if it had returned no results (the other
results of the other backend are still merged and returned), and when both backends
fail the result is the static gazetteer lookup. -/
theorem search_locations_failure_isolation (query : String) (e1 e2 : String)
    (photon nominatim : Except String (List GeoResult)) (limit : ℕ)
    (hlen : 3 ≤ (jsTrim query).length) :
    searchLocationsModel query (.error e1) nominatim limit =
      searchLocationsModel query (.ok []) nominatim limit ∧
    searchLocationsModel query photon (.error e2) limit =
      searchLocationsModel query photon (.ok []) limit ∧
    searchLocationsModel query (.error e1) (.error e2) limit =
      generateMockSuggestions (jsTrim query) := by
  refine ⟨rfl, rfl, ?_⟩
  unfold searchLocationsModel
  rw [if_neg (by omega)]
  rfl

/-- Witness for C6 at a concrete query. -/
theorem search_locations_failure_isolation_witness :
    searchLocationsModel "connaught place" (.error "nx") (.ok []) 5 =
      searchLocationsModel "connaught place" (.ok []) (.ok []) 5 ∧
    searchLocationsModel "connaught place" (.ok []) (.error "ny") 5 =
      searchLocationsModel "connaught place" (.ok []) (.ok []) 5 ∧
    searchLocationsModel "connaught place" (.error "nx") (.error "ny") 5 =
      generateMockSuggestions (jsTrim "connaught place") :=
  search_locations_failure_isolation "connaught place" "nx" "ny" (.ok []) (.ok []) 5
    (by decide)

/-! ### Form-layer validation (`src/utils/index.ts`,
`src/components/SearchCard.tsx`) -/

/-- `isValidLocation` from `src/utils/index.ts` lines 106-115.  The
`typeof` checks of the source hold by construction in this typed
embedding; the range checks are `Math.abs(lat) <= 90` and
`Math.abs(lng) <= 180`. -/
def isValidLocation (l : Location) : Bool :=
  decide (|l.lat| ≤ 90) && decide (|l.lng| ≤ 180)

/-- `handleSubmit` from `src/components/SearchCard.tsx` lines 27-32: the
compare request issued by a form submission, `none` when the submission
is rejected.  The only guard in the source is `if (pickup && dropoff)`;
no coordinate validation is performed. -/
def handleSubmit (pickup dropoff : Option Location) (vehicleType : String) :
    Option (Location × Location × String) :=
  match pickup, dropoff with
  | some p, some d => some (p, d, vehicleType)
  | _, _ => none

/-- An out-of-range location: latitude 200 is outside [-90, 90]. -/
def badLocation : Location :=
  { lat := 200, lng := 0, address := "nowhere", placeId := none }

/-- A well-formed location. -/
def okLocation : Location :=
  { lat := 28.6139, lng := 77.2090,
    address := "Connaught Place, New Delhi, Delhi, India", placeId := none }

/-- Counterexample to C7: a submission whose pickup has latitude 200 —
rejected by `isValidLocation` — is nevertheless accepted by the
submit handler of the form, which issues a compare request. -/
theorem out_of_range_location_not_rejected :
    isValidLocation badLocation = false ∧
    (handleSubmit (some badLocation) (some okLocation) "car").isSome = true := by
  constructor
  · unfold isValidLocation badLocation
    simp only [Bool.and_eq_false_iff, decide_eq_false_iff_not]
    left
    rw [abs_of_nonneg (by norm_num)]
    norm_num
  · rfl

/-- C7 (amended): the form layer rejects a submission exactly when the
pickup or the drop-off is missing; the range check `isValidLocation`
exists in the utilities but is not invoked by the submit handler, so an
out-of-range location already in form state is not rejected. -/
theorem form_submission_guard (pickup dropoff : Option Location) (vehicleType : String) :
    (handleSubmit pickup dropoff vehicleType).isSome =
      (pickup.isSome && dropoff.isSome) := by
  cases pickup <;> cases dropoff <;> rfl

end Cabsync
